import Mathlib

/-!
Shallow embedding of the PROS kernel's competition daemon
(`src/system/system_daemon.c`), hot-reload table (`src/system/hot.c`) and
IMU driver error paths (`src/devices/vdml_imu.c`), with proofs of the
behavioural properties stated in the specification.

Machine integers are modelled as `Nat`; pointers as `Nat` addresses
(0 = NULL); C truthiness tests `x & MASK` become `x &&& MASK ≠ 0`.
-/

/-! ## Competition status bitmask

The three flag bits of the externally owned competition status word.
Modelled from the spec: the values come from the public API header
(`pros/misc.h`), which is not part of the sources; the spec only requires
them to be three distinct single bits (`DISABLED`, `AUTONOMOUS`,
`CONNECTED`). -/

def COMPETITION_DISABLED : Nat := 1 <<< 0

def COMPETITION_AUTONOMOUS : Nat := 1 <<< 1

def COMPETITION_CONNECTED : Nat := 1 <<< 2

/-- The four competition mode tasks, `enum state_task`
(`system_daemon.c` line 40). -/
inductive state_task where
  | E_OPCONTROL_TASK
  | E_AUTON_TASK
  | E_DISABLED_TASK
  | E_COMP_INIT_TASK
deriving DecidableEq, Repr

/-- RTOS task scheduler states (public API header `pros/rtos.h`);
only their identities matter here. -/
inductive task_state_e where
  | E_TASK_STATE_RUNNING
  | E_TASK_STATE_READY
  | E_TASK_STATE_BLOCKED
  | E_TASK_STATE_SUSPENDED
  | E_TASK_STATE_DELETED
  | E_TASK_STATE_INVALID
deriving DecidableEq, Repr

/-- The next-state computation of `_system_daemon_task`
(`system_daemon.c` lines 91-106): starting from `E_OPCONTROL_TASK`,
reassign to `E_COMP_INIT_TASK` when the `CONNECTED` bit changed and the
new status has both `DISABLED` and `CONNECTED` set, else to
`E_DISABLED_TASK` when `DISABLED` is set, else to `E_AUTON_TASK` when
`AUTONOMOUS` is set. -/
def next_state (old_status status : Nat) : state_task :=
  if (status ^^^ old_status) &&& COMPETITION_CONNECTED ≠ 0 ∧
      status &&& (COMPETITION_DISABLED ||| COMPETITION_CONNECTED)
        = COMPETITION_DISABLED ||| COMPETITION_CONNECTED then
    state_task.E_COMP_INIT_TASK
  else if status &&& COMPETITION_DISABLED ≠ 0 then
    state_task.E_DISABLED_TASK
  else if status &&& COMPETITION_AUTONOMOUS ≠ 0 then
    state_task.E_AUTON_TASK
  else
    state_task.E_OPCONTROL_TASK

/-- The transition decision of one steady-state loop iteration
(`system_daemon.c` lines 87-106): `none` when the polled status equals
the remembered one (the `unlikely` guard fails) or when the `DISABLED`
bit is set in both (the `continue` at line 94); otherwise the computed
next state. -/
def daemon_transition (status polled : Nat) : Option state_task :=
  if polled ≠ status then
    if polled &&& COMPETITION_DISABLED ≠ 0 ∧ status &&& COMPETITION_DISABLED ≠ 0 then
      none
    else
      some (next_state status polled)
  else
    none

/-- Tag for the function a daemon-created task runs: the bootstrap
initialization task or one of the four mode tasks. -/
inductive daemon_task_fn where
  | init_task
  | mode (s : state_task)
deriving DecidableEq, Repr

/-- Observable actions of one loop iteration of `_system_daemon_task`. -/
inductive Event where
  | background
  | task_delete
  | task_create (fn : daemon_task_fn)
  | delay_until
deriving DecidableEq, Repr

/-- The delete-then-create sequence of a transition
(`system_daemon.c` lines 108-118): the outgoing task is deleted only
when `task_get_state` reports ready, blocked or suspended, and the
replacement is created afterwards. -/
def transition_events (ts : task_state_e) (st : state_task) : List Event :=
  (if ts = task_state_e.E_TASK_STATE_READY ∨ ts = task_state_e.E_TASK_STATE_BLOCKED ∨
      ts = task_state_e.E_TASK_STATE_SUSPENDED then
    [Event.task_delete]
  else
    []) ++ [Event.task_create (daemon_task_fn.mode st)]

/-- Observable actions of one full steady-state loop iteration
(`system_daemon.c` lines 84-122): run the background operations, then
the conditional transition, then `task_delay_until` — except that the
both-`DISABLED` `continue` (line 94) skips the `task_delay_until` at
line 121. `status` is the remembered status, `polled` the freshly read
one, `ts` the scheduler state of the task occupying the slot. -/
def loop_iter_events (status polled : Nat) (ts : task_state_e) : List Event :=
  Event.background ::
    (if polled ≠ status then
      if polled &&& COMPETITION_DISABLED ≠ 0 ∧ status &&& COMPETITION_DISABLED ≠ 0 then
        []
      else
        transition_events ts (next_state status polled) ++ [Event.delay_until]
    else
      [Event.delay_until])

/-- Effect of one loop iteration on the mode-task slot: replaced exactly
when a transition occurs, untouched otherwise. -/
def loop_iter_slot (slot : Option daemon_task_fn) (status polled : Nat) :
    Option daemon_task_fn :=
  match daemon_transition status polled with
  | some st => some (daemon_task_fn.mode st)
  | none => slot

/-- The remembered status after one loop iteration: `status` is
overwritten with the polled value whenever they differ
(`system_daemon.c` line 90). -/
def loop_iter_status (status polled : Nat) : Nat :=
  if polled ≠ status then polled else status

/-! ## Specification-side bit predicates

The spec speaks of individual bits of the status word; these are the
`testBit` readings of the three flag positions. -/

def disabledBit (s : Nat) : Bool := s.testBit 0

def autonomousBit (s : Nat) : Bool := s.testBit 1

def connectedBit (s : Nat) : Bool := s.testBit 2

/-! ## Hot-reload table (`src/system/hot.c`)

Pointers are modelled as `Nat` addresses with 0 = NULL. The layout of
`struct hot_table` is modelled from the spec (the header
`system/hot.h` is not part of the sources): two metadata string
pointers and one function-pointer slot per user-overridable callback
(`initialize`, `autonomous`, `opcontrol`, `disabled`,
`competition_initialize`) plus the alternate-linkage initializer
(`cpp_initialize`). -/

def MAGIC0 : Nat := 0x52616368

def MAGIC1 : Nat := 0x8CEF7310

structure hot_table where
  compile_timestamp : Nat
  compile_directory : Nat
  fn_init : Nat
  fn_autonomous : Nat
  fn_opcontrol : Nat
  fn_disabled : Nat
  fn_comp_init : Nat
  fn_cpp_init : Nat
deriving DecidableEq, Repr

/-- The `memset(HOT_TABLE, 0, sizeof(*HOT_TABLE))` outcome
(`hot.c` line 58): every field zero. -/
def zero_table : hot_table :=
  { compile_timestamp := 0
    compile_directory := 0
    fn_init := 0
    fn_autonomous := 0
    fn_opcontrol := 0
    fn_disabled := 0
    fn_comp_init := 0
    fn_cpp_init := 0 }

/-- The link-time constants of the hot binary: the addresses of its
compile metadata strings and of each user-overridable callback, as the
linker resolved them (`hot.c` lines 19-32). -/
structure hot_binary where
  compile_timestamp : Nat
  compile_directory : Nat
  fn_init : Nat
  fn_autonomous : Nat
  fn_opcontrol : Nat
  fn_disabled : Nat
  fn_comp_init : Nat
  fn_cpp_init : Nat
deriving DecidableEq, Repr

/-- `install_hot_table` (`hot.c` lines 34-51), table contents only: the
metadata pointers and every callback slot are copied from the hot
binary's linked constants. -/
def install_hot_table (bin : hot_binary) : hot_table :=
  { compile_timestamp := bin.compile_timestamp
    compile_directory := bin.compile_directory
    fn_init := bin.fn_init
    fn_autonomous := bin.fn_autonomous
    fn_opcontrol := bin.fn_opcontrol
    fn_disabled := bin.fn_disabled
    fn_comp_init := bin.fn_comp_init
    fn_cpp_init := bin.fn_cpp_init }

/-- Result of an install attempt: the resulting table and whether any
error was reported to a caller (the code only logs over serial and has
no error path, so this is `false` on every branch). -/
structure invoke_result where
  table : hot_table
  error_reported : Bool
deriving DecidableEq, Repr

/-- `invoke_install_hot_table` (`hot.c` lines 53-60): read the two
sentinel words; on an exact match of both magic constants install the
table from the hot binary, otherwise zero the whole table. -/
def invoke_install_hot_table (magic0 magic1 : Nat) (bin : hot_binary) :
    invoke_result :=
  if magic0 = MAGIC0 ∧ magic1 = MAGIC1 then
    { table := install_hot_table bin, error_reported := false }
  else
    { table := zero_table, error_reported := false }

/-! ## bss clearing inside `install_hot_table` (`hot.c` lines 46-48)

Byte memory is a function from addresses to byte values. -/

/-- `memset(start, 0, len)` on byte memory. -/
def memset_region (mem : Nat → Nat) (start len : Nat) : Nat → Nat :=
  fun a => if start ≤ a ∧ a < start + len then 0 else mem a

/-- The linker-provided boundaries of the hot binary's two
uninitialized-data regions (`hot.c` lines 23-26). -/
structure hot_layout where
  sbss_start : Nat
  sbss_end : Nat
  bss_start : Nat
  bss_end : Nat
deriving DecidableEq, Repr

/-- The two `memset` calls of `install_hot_table` (`hot.c` lines 46-48),
exactly as written: the sbss region is cleared with length
`__sbss_end - __sbss_start`, the bss region with length
`__bss_end - __bss_end`. -/
def install_clear_bss (layout : hot_layout) (mem : Nat → Nat) : Nat → Nat :=
  memset_region
    (memset_region mem layout.sbss_start (layout.sbss_end - layout.sbss_start))
    layout.bss_start (layout.bss_end - layout.bss_end)

/-! ## Entry-point resolution (`src/system/system_daemon.c` lines 164-188) -/

/-- The statically linked symbols of the cold binary that the daemon's
task bodies and the resolution layer can refer to. -/
inductive cold_symbol where
  | sym_init
  | sym_cpp_init
  | sym_autonomous
  | sym_opcontrol
  | sym_disabled
  | sym_comp_init
deriving DecidableEq, Repr

/-- What a call site ends up invoking: a statically linked symbol of the
cold binary, or an address taken from a hot-table slot. -/
inductive call_target where
  | static_sym (s : cold_symbol)
  | hot_addr (a : Nat)
deriving DecidableEq, Repr

/-- The two cached function pointers of `system_daemon.c` lines 144 and
164 (named with the C-style initialization suffix there; shortened to
`_init` here). -/
structure user_bindings where
  user_init : call_target
  user_cpp_init : call_target
deriving DecidableEq, Repr

/-- `setup_user_functions` (`system_daemon.c` lines 166-170), the
constructor that runs once at static initialization: each of the two
pointers is bound to the hot-table slot when that slot is non-null and
to the statically linked symbol otherwise. -/
def setup_user_functions (tbl : hot_table) : user_bindings :=
  { user_init :=
      if tbl.fn_init ≠ 0 then call_target.hot_addr tbl.fn_init
      else call_target.static_sym cold_symbol.sym_init
    user_cpp_init :=
      if tbl.fn_cpp_init ≠ 0 then call_target.hot_addr tbl.fn_cpp_init
      else call_target.static_sym cold_symbol.sym_cpp_init }

/-- What each mode task body invokes (`system_daemon.c` lines 173-188):
`_autonomous_task` calls `autonomous()`, `_opcontrol_task` calls
`opcontrol()`, `_disabled_task` calls `disabled()`,
`_competition_initialize_task` calls `competition_initialize()` — each a
statically linked symbol. The hot table is a parameter so that
dependence on it can be stated, but the task bodies never read it. -/
def mode_task_invokes (_tbl : hot_table) : state_task → call_target :=
  fun s =>
    match s with
    | state_task.E_AUTON_TASK => call_target.static_sym cold_symbol.sym_autonomous
    | state_task.E_OPCONTROL_TASK => call_target.static_sym cold_symbol.sym_opcontrol
    | state_task.E_DISABLED_TASK => call_target.static_sym cold_symbol.sym_disabled
    | state_task.E_COMP_INIT_TASK =>
        call_target.static_sym cold_symbol.sym_comp_init

/-- What `_initialize_task` invokes (`system_daemon.c` lines 177-180):
the cached `user_init` pointer. -/
def init_task_invokes (b : user_bindings) : call_target := b.user_init

/-! ## IMU driver error paths (`src/devices/vdml_imu.c`)

Doubles carry no arithmetic here: a returned double is either the error
sentinel `PROS_ERR_F` or a vendor reading, so they are modelled by a
two-constructor type. `errno` effects are symbolic: the calibrating
guard sets `EAGAIN`, the port-claim macros set their own value on
failure, and the success path leaves `errno` alone. -/

def PROS_ERR : Int := 2147483647

/-- The calibrating flag of the IMU status word
(`E_IMU_STATUS_CALIBRATING`, public API header `pros/imu.h`, bit 0). -/
def E_IMU_STATUS_CALIBRATING : Nat := 0x01

/-- The IMU status error sentinel (`E_IMU_STATUS_ERROR`, public API
header `pros/imu.h`). -/
def E_IMU_STATUS_ERROR : Nat := 0xFF

inductive errno_effect where
  | unchanged
  | set_eagain
  | set_by_claim_macro
deriving DecidableEq, Repr

inductive pros_double where
  | pros_err_f
  | vendor_reading
deriving DecidableEq, Repr

structure quaternion_s_t where
  a : pros_double
  b : pros_double
  c : pros_double
  d : pros_double
deriving DecidableEq, Repr

structure attitude_s_t where
  pitch : pros_double
  roll : pros_double
  yaw : pros_double
deriving DecidableEq, Repr

structure imu_s_t where
  x : pros_double
  y : pros_double
  z : pros_double
  w : pros_double
deriving DecidableEq, Repr

/-- Outcome of one IMU accessor call: the `errno` effect, whether the
port mutex was released on exit, the returned value, and whether the
accessor's own vendor operation (`vexDeviceImuReset`,
`vexDeviceImuHeadingGet`, ..., or the value-producing
`vexDeviceImuStatusGet` at `vdml_imu.c` line 111) was invoked. The
guard's own `vexDeviceImuStatusGet` inside
`ERROR_IMU_STILL_CALIBRATING` is not counted here. -/
structure imu_exec (α : Type) where
  errno : errno_effect
  port_released : Bool
  ret : α
  vendor_op_invoked : Bool
deriving DecidableEq, Repr

/-- Whether the device status word read by the calibrating guard
(`vdml_imu.c` lines 19-23) has the calibrating flag set. -/
def imu_calibrating (status_word : Nat) : Bool :=
  decide (status_word &&& E_IMU_STATUS_CALIBRATING ≠ 0)

/-- `imu_reset` (`vdml_imu.c` lines 25-30): `claim_port_i` guard, then
the calibrating guard returning `PROS_ERR`, then `vexDeviceImuReset`
and `return_port(port - 1, 1)`. `claim_ok` abstracts whether
`claim_port_i` succeeded; `status_word` is the device status the
calibrating guard reads. -/
def imu_reset (claim_ok : Bool) (status_word : Nat) : imu_exec Int :=
  if claim_ok then
    if imu_calibrating status_word then
      { errno := errno_effect.set_eagain, port_released := true,
        ret := PROS_ERR, vendor_op_invoked := false }
    else
      { errno := errno_effect.unchanged, port_released := true,
        ret := 1, vendor_op_invoked := true }
  else
    { errno := errno_effect.set_by_claim_macro, port_released := false,
      ret := PROS_ERR, vendor_op_invoked := false }

/-- `imu_get_heading` (`vdml_imu.c` lines 32-37): calibrating guard
returns `PROS_ERR_F`, success returns the `vexDeviceImuHeadingGet`
reading. -/
def imu_get_heading (claim_ok : Bool) (status_word : Nat) : imu_exec pros_double :=
  if claim_ok then
    if imu_calibrating status_word then
      { errno := errno_effect.set_eagain, port_released := true,
        ret := pros_double.pros_err_f, vendor_op_invoked := false }
    else
      { errno := errno_effect.unchanged, port_released := true,
        ret := pros_double.vendor_reading, vendor_op_invoked := true }
  else
    { errno := errno_effect.set_by_claim_macro, port_released := false,
      ret := pros_double.pros_err_f, vendor_op_invoked := false }

/-- `imu_get_degrees` (`vdml_imu.c` lines 39-44), same shape as
`imu_get_heading` with `vexDeviceImuDegreesGet`. -/
def imu_get_degrees (claim_ok : Bool) (status_word : Nat) : imu_exec pros_double :=
  if claim_ok then
    if imu_calibrating status_word then
      { errno := errno_effect.set_eagain, port_released := true,
        ret := pros_double.pros_err_f, vendor_op_invoked := false }
    else
      { errno := errno_effect.unchanged, port_released := true,
        ret := pros_double.vendor_reading, vendor_op_invoked := true }
  else
    { errno := errno_effect.set_by_claim_macro, port_released := false,
      ret := pros_double.pros_err_f, vendor_op_invoked := false }

/-- `QUATERNION_ERR_INIT` (`vdml_imu.c` lines 46-47). -/
def quaternion_err : quaternion_s_t :=
  { a := pros_double.pros_err_f, b := pros_double.pros_err_f,
    c := pros_double.pros_err_f, d := pros_double.pros_err_f }

/-- `imu_get_quaternion` (`vdml_imu.c` lines 49-59): `rtn` starts as
`QUATERNION_ERR_INIT`; a failed `claim_port_try` returns it without
releasing; the calibrating guard releases and returns it; success fills
it from `vexDeviceImuQuaternionGet`. -/
def imu_get_quaternion (claim_ok : Bool) (status_word : Nat) :
    imu_exec quaternion_s_t :=
  if claim_ok then
    if imu_calibrating status_word then
      { errno := errno_effect.set_eagain, port_released := true,
        ret := quaternion_err, vendor_op_invoked := false }
    else
      { errno := errno_effect.unchanged, port_released := true,
        ret := { a := pros_double.vendor_reading, b := pros_double.vendor_reading,
                 c := pros_double.vendor_reading, d := pros_double.vendor_reading },
        vendor_op_invoked := true }
  else
    { errno := errno_effect.set_by_claim_macro, port_released := false,
      ret := quaternion_err, vendor_op_invoked := false }

/-- `ATTITUDE_ERR_INIT` (`vdml_imu.c` lines 61-62). -/
def attitude_err : attitude_s_t :=
  { pitch := pros_double.pros_err_f, roll := pros_double.pros_err_f,
    yaw := pros_double.pros_err_f }

/-- `imu_get_attitude` (`vdml_imu.c` lines 64-74). -/
def imu_get_attitude (claim_ok : Bool) (status_word : Nat) :
    imu_exec attitude_s_t :=
  if claim_ok then
    if imu_calibrating status_word then
      { errno := errno_effect.set_eagain, port_released := true,
        ret := attitude_err, vendor_op_invoked := false }
    else
      { errno := errno_effect.unchanged, port_released := true,
        ret := { pitch := pros_double.vendor_reading, roll := pros_double.vendor_reading,
                 yaw := pros_double.vendor_reading },
        vendor_op_invoked := true }
  else
    { errno := errno_effect.set_by_claim_macro, port_released := false,
      ret := attitude_err, vendor_op_invoked := false }

/-- `RAW_IMU_ERR_INIT` (`vdml_imu.c` lines 76-77). -/
def raw_imu_err : imu_s_t :=
  { x := pros_double.pros_err_f, y := pros_double.pros_err_f,
    z := pros_double.pros_err_f, w := pros_double.pros_err_f }

/-- `imu_get_raw_gyro` (`vdml_imu.c` lines 79-89). -/
def imu_get_raw_gyro (claim_ok : Bool) (status_word : Nat) : imu_exec imu_s_t :=
  if claim_ok then
    if imu_calibrating status_word then
      { errno := errno_effect.set_eagain, port_released := true,
        ret := raw_imu_err, vendor_op_invoked := false }
    else
      { errno := errno_effect.unchanged, port_released := true,
        ret := { x := pros_double.vendor_reading, y := pros_double.vendor_reading,
                 z := pros_double.vendor_reading, w := pros_double.vendor_reading },
        vendor_op_invoked := true }
  else
    { errno := errno_effect.set_by_claim_macro, port_released := false,
      ret := raw_imu_err, vendor_op_invoked := false }

/-- `imu_get_raw_accel` (`vdml_imu.c` lines 91-101). -/
def imu_get_raw_accel (claim_ok : Bool) (status_word : Nat) : imu_exec imu_s_t :=
  if claim_ok then
    if imu_calibrating status_word then
      { errno := errno_effect.set_eagain, port_released := true,
        ret := raw_imu_err, vendor_op_invoked := false }
    else
      { errno := errno_effect.unchanged, port_released := true,
        ret := { x := pros_double.vendor_reading, y := pros_double.vendor_reading,
                 z := pros_double.vendor_reading, w := pros_double.vendor_reading },
        vendor_op_invoked := true }
  else
    { errno := errno_effect.set_by_claim_macro, port_released := false,
      ret := raw_imu_err, vendor_op_invoked := false }

/-- `imu_get_status` (`vdml_imu.c` lines 103-113): `rtn` starts as
`E_IMU_STATUS_ERROR`; the calibrating guard releases the port and
returns `E_IMU_STATUS_ERROR`; success returns the status word read by
the second `vexDeviceImuStatusGet` (line 111). -/
def imu_get_status (claim_ok : Bool) (status_word : Nat) : imu_exec Nat :=
  if claim_ok then
    if imu_calibrating status_word then
      { errno := errno_effect.set_eagain, port_released := true,
        ret := E_IMU_STATUS_ERROR, vendor_op_invoked := false }
    else
      { errno := errno_effect.unchanged, port_released := true,
        ret := status_word, vendor_op_invoked := true }
  else
    { errno := errno_effect.set_by_claim_macro, port_released := false,
      ret := E_IMU_STATUS_ERROR, vendor_op_invoked := false }

/-! ## Slot occupancy bookkeeping for the mode-task slot invariant -/

/-- The bootstrap step (`system_daemon.c` lines 76-77): the daemon
creates the initialization task in the previously empty slot. -/
def bootstrap_events : List Event := [Event.task_create daemon_task_fn.init_task]

/-- Number of live tasks occupying the single static slot after one
event: `task_delete` removes one, `task_create` adds one. -/
def occ_after (n : Nat) : Event → Nat
  | Event.task_delete => n - 1
  | Event.task_create _ => n + 1
  | _ => n

/-- The occupancy after every event of a list, in order. -/
def occ_trace (n : Nat) : List Event → List Nat
  | [] => []
  | e :: es => occ_after n e :: occ_trace (occ_after n e) es

/-- Spec-side predicate: the slot holds zero or one live task at every
recorded instant. -/
def at_most_one (l : List Nat) : Bool := l.all (fun m => decide (m ≤ 1))

/-! ## Concrete sample data used by witness theorems -/

def wit_bin : hot_binary :=
  { compile_timestamp := 10
    compile_directory := 11
    fn_init := 21
    fn_autonomous := 22
    fn_opcontrol := 23
    fn_disabled := 24
    fn_comp_init := 25
    fn_cpp_init := 26 }

/-- A Reload Table whose only non-null slot is `autonomous`. -/
def tbl_over : hot_table := { zero_table with fn_autonomous := 4096 }

/-- A Reload Table whose only non-null slot is `initialize`. -/
def tbl_over2 : hot_table := { zero_table with fn_init := 7 }

/-! ## Bridging lemmas between the code's mask arithmetic and the
spec's per-bit reading of the status word -/

/-- A masked test against a single bit is the `testBit` reading. -/
theorem and_pow_ne_zero_iff (x i : Nat) : x &&& 2 ^ i ≠ 0 ↔ x.testBit i = true := by
  rw [Nat.and_two_pow]
  cases h : x.testBit i <;> simp [h]

theorem and_disabled_ne_zero_iff (x : Nat) :
    x &&& COMPETITION_DISABLED ≠ 0 ↔ disabledBit x = true := by
  have hc : COMPETITION_DISABLED = 2 ^ 0 := by decide
  rw [hc, disabledBit]
  exact and_pow_ne_zero_iff x 0

theorem and_autonomous_ne_zero_iff (x : Nat) :
    x &&& COMPETITION_AUTONOMOUS ≠ 0 ↔ autonomousBit x = true := by
  have hc : COMPETITION_AUTONOMOUS = 2 ^ 1 := by decide
  rw [hc, autonomousBit]
  exact and_pow_ne_zero_iff x 1

theorem xor_connected_ne_zero_iff (x y : Nat) :
    (x ^^^ y) &&& COMPETITION_CONNECTED ≠ 0 ↔ connectedBit x ≠ connectedBit y := by
  have hc : COMPETITION_CONNECTED = 2 ^ 2 := by decide
  rw [hc, and_pow_ne_zero_iff (x ^^^ y) 2, Nat.testBit_xor, connectedBit, connectedBit]
  cases hx : x.testBit 2 <;> cases hy : y.testBit 2 <;> simp

/-- The combined `DISABLED | CONNECTED` mask equality test of
`system_daemon.c` line 100 reads exactly the two bits. -/
theorem and_dc_mask_iff (x : Nat) :
    x &&& (COMPETITION_DISABLED ||| COMPETITION_CONNECTED)
        = COMPETITION_DISABLED ||| COMPETITION_CONNECTED ↔
      disabledBit x = true ∧ connectedBit x = true := by
  have hmask : COMPETITION_DISABLED ||| COMPETITION_CONNECTED = 5 := by decide
  rw [hmask, disabledBit, connectedBit]
  constructor
  · intro h
    constructor
    · have h0 := congrArg (fun n => n.testBit 0) h
      simp only [Nat.testBit_and] at h0
      have h5 : Nat.testBit 5 0 = true := by decide
      rw [h5, Bool.and_true] at h0
      exact h0
    · have h2 := congrArg (fun n => n.testBit 2) h
      simp only [Nat.testBit_and] at h2
      have h5 : Nat.testBit 5 2 = true := by decide
      rw [h5, Bool.and_true] at h2
      exact h2
  · rintro ⟨h0, h2⟩
    apply Nat.eq_of_testBit_eq
    intro i
    rw [Nat.testBit_and]
    match i with
    | 0 =>
      have h5 : Nat.testBit 5 0 = true := by decide
      rw [h5, h0, Bool.true_and]
    | 1 =>
      have h5 : Nat.testBit 5 1 = false := by decide
      rw [h5, Bool.and_false]
    | 2 =>
      have h5 : Nat.testBit 5 2 = true := by decide
      rw [h5, h2, Bool.true_and]
    | (n + 3) =>
      have h5 : (5 : Nat) < 2 ^ (n + 3) := by
        calc (5 : Nat) < 2 ^ 3 := by norm_num
        _ ≤ 2 ^ (n + 3) := Nat.pow_le_pow_right (by norm_num) (by omega)
      rw [Nat.testBit_lt_two_pow h5, Bool.and_false]

/-- C1: for every pair of competition status words (old, new) with
old ≠ new and not both having the DISABLED bit set, the daemon
transitions, and the next state is chosen by priority: COMP_INIT when
the CONNECTED bit differs between old and new and the new status has
both DISABLED and CONNECTED set; else DISABLED when the DISABLED bit is
set in new; else AUTONOMOUS when the AUTONOMOUS bit is set in new; else
OPCONTROL. -/
theorem C1_next_state_priority (old new : Nat) (hne : old ≠ new)
    (hnd : ¬(disabledBit old = true ∧ disabledBit new = true)) :
    daemon_transition old new =
      some
        (if connectedBit new ≠ connectedBit old ∧
            disabledBit new = true ∧ connectedBit new = true then
          state_task.E_COMP_INIT_TASK
        else if disabledBit new = true then
          state_task.E_DISABLED_TASK
        else if autonomousBit new = true then
          state_task.E_AUTON_TASK
        else
          state_task.E_OPCONTROL_TASK) := by
  have hne' : new ≠ old := fun h => hne h.symm
  have hnd' : ¬(new &&& COMPETITION_DISABLED ≠ 0 ∧ old &&& COMPETITION_DISABLED ≠ 0) := by
    rw [and_disabled_ne_zero_iff, and_disabled_ne_zero_iff]
    intro h
    exact hnd ⟨h.2, h.1⟩
  unfold daemon_transition
  rw [if_pos hne', if_neg hnd']
  unfold next_state
  simp only [xor_connected_ne_zero_iff, and_dc_mask_iff, and_disabled_ne_zero_iff,
    and_autonomous_ne_zero_iff]

/-- Witness for C1 at the spec's own example: old = AUTONOMOUS only
(2), new = 0 transitions to OPCONTROL. -/
theorem C1_witness : daemon_transition 2 0 = some state_task.E_OPCONTROL_TASK := by
  rw [C1_next_state_priority 2 0 (by decide) (by decide)]
  decide

/-- C2: whenever the DISABLED bit is set in both the old and the new
status word, the daemon performs no transition: no task is deleted, no
task is created, and the slot is untouched — even if other bits (such
as AUTONOMOUS) differ. -/
theorem C2_disabled_suppression (status polled : Nat) (ts : task_state_e)
    (slot : Option daemon_task_fn)
    (hd_old : disabledBit status = true) (hd_new : disabledBit polled = true) :
    daemon_transition status polled = none ∧
    Event.task_delete ∉ loop_iter_events status polled ts ∧
    (∀ fn, Event.task_create fn ∉ loop_iter_events status polled ts) ∧
    loop_iter_slot slot status polled = slot := by
  have hd_new' : polled &&& COMPETITION_DISABLED ≠ 0 :=
    (and_disabled_ne_zero_iff polled).mpr hd_new
  have hd_old' : status &&& COMPETITION_DISABLED ≠ 0 :=
    (and_disabled_ne_zero_iff status).mpr hd_old
  have htrans : daemon_transition status polled = none := by
    unfold daemon_transition
    by_cases h : polled ≠ status
    · rw [if_pos h, if_pos ⟨hd_new', hd_old'⟩]
    · rw [if_neg h]
  have hev : loop_iter_events status polled ts = [Event.background] ∨
      loop_iter_events status polled ts = [Event.background, Event.delay_until] := by
    unfold loop_iter_events
    by_cases h : polled ≠ status
    · rw [if_pos h, if_pos ⟨hd_new', hd_old'⟩]
      exact Or.inl rfl
    · rw [if_neg h]
      exact Or.inr rfl
  refine ⟨htrans, ?_, ?_, ?_⟩
  · rcases hev with h | h <;> rw [h] <;> decide
  · intro fn
    rcases hev with h | h <;> rw [h] <;> simp
  · unfold loop_iter_slot
    rw [htrans]

/-- Witness for C2 at the spec's own example: old = DISABLED (1),
new = DISABLED|AUTONOMOUS (3). -/
theorem C2_witness :
    daemon_transition 1 3 = none ∧
    Event.task_delete ∉ loop_iter_events 1 3 task_state_e.E_TASK_STATE_READY ∧
    Event.task_create (daemon_task_fn.mode state_task.E_AUTON_TASK) ∉
      loop_iter_events 1 3 task_state_e.E_TASK_STATE_READY ∧
    loop_iter_slot (some (daemon_task_fn.mode state_task.E_DISABLED_TASK)) 1 3 =
      some (daemon_task_fn.mode state_task.E_DISABLED_TASK) := by
  have h := C2_disabled_suppression 1 3 task_state_e.E_TASK_STATE_READY
    (some (daemon_task_fn.mode state_task.E_DISABLED_TASK)) (by decide) (by decide)
  exact ⟨h.1, h.2.1, h.2.2.1 _, h.2.2.2⟩

/-- C9: when the freshly polled status equals the previous tick's value
the transition logic is skipped entirely: the iteration is exactly one
background step followed by the deadline sleep, no transition is
computed, and slot and remembered status are untouched. -/
theorem C9_unchanged_skip (status polled : Nat) (ts : task_state_e)
    (slot : Option daemon_task_fn) (h : polled = status) :
    loop_iter_events status polled ts = [Event.background, Event.delay_until] ∧
    daemon_transition status polled = none ∧
    loop_iter_slot slot status polled = slot ∧
    loop_iter_status status polled = status := by
  subst h
  have htrans : daemon_transition polled polled = none := by
    unfold daemon_transition
    simp
  refine ⟨?_, htrans, ?_, ?_⟩
  · unfold loop_iter_events
    simp
  · unfold loop_iter_slot
    rw [htrans]
  · unfold loop_iter_status
    simp

/-- Witness for C9 at status = polled = 4 (CONNECTED only). -/
theorem C9_witness :
    loop_iter_events 4 4 task_state_e.E_TASK_STATE_BLOCKED =
      [Event.background, Event.delay_until] ∧
    daemon_transition 4 4 = none ∧
    loop_iter_slot (some (daemon_task_fn.mode state_task.E_OPCONTROL_TASK)) 4 4 =
      some (daemon_task_fn.mode state_task.E_OPCONTROL_TASK) ∧
    loop_iter_status 4 4 = 4 :=
  C9_unchanged_skip 4 4 task_state_e.E_TASK_STATE_BLOCKED
    (some (daemon_task_fn.mode state_task.E_OPCONTROL_TASK)) rfl

/-- C7: on every transition the outgoing task is deleted iff its
scheduler state is ready, blocked or suspended; a deleted, invalid or
running task is never passed to `task_delete`; and the whole iteration
is background step, optional delete, then create, then sleep — deletion
strictly before creation. -/
theorem C7_delete_gating (status polled : Nat) (ts : task_state_e) (st : state_task)
    (h : daemon_transition status polled = some st) :
    (Event.task_delete ∈ loop_iter_events status polled ts ↔
      (ts = task_state_e.E_TASK_STATE_READY ∨ ts = task_state_e.E_TASK_STATE_BLOCKED ∨
        ts = task_state_e.E_TASK_STATE_SUSPENDED)) ∧
    ((ts = task_state_e.E_TASK_STATE_DELETED ∨ ts = task_state_e.E_TASK_STATE_INVALID ∨
        ts = task_state_e.E_TASK_STATE_RUNNING) →
      Event.task_delete ∉ loop_iter_events status polled ts) ∧
    loop_iter_events status polled ts =
      Event.background ::
        ((if ts = task_state_e.E_TASK_STATE_READY ∨ ts = task_state_e.E_TASK_STATE_BLOCKED ∨
            ts = task_state_e.E_TASK_STATE_SUSPENDED then
          [Event.task_delete]
        else
          []) ++ [Event.task_create (daemon_task_fn.mode st), Event.delay_until]) := by
  unfold daemon_transition at h
  by_cases h1 : polled ≠ status
  · rw [if_pos h1] at h
    by_cases h2 : polled &&& COMPETITION_DISABLED ≠ 0 ∧ status &&& COMPETITION_DISABLED ≠ 0
    · rw [if_pos h2] at h
      exact absurd h (by simp)
    · rw [if_neg h2] at h
      have hst : next_state status polled = st := by
        injection h
      have hev : loop_iter_events status polled ts =
          Event.background ::
            ((if ts = task_state_e.E_TASK_STATE_READY ∨
                ts = task_state_e.E_TASK_STATE_BLOCKED ∨
                ts = task_state_e.E_TASK_STATE_SUSPENDED then
              [Event.task_delete]
            else
              []) ++ [Event.task_create (daemon_task_fn.mode st), Event.delay_until]) := by
        unfold loop_iter_events
        rw [if_pos h1, if_neg h2]
        unfold transition_events
        rw [hst]
        by_cases hl : ts = task_state_e.E_TASK_STATE_READY ∨
            ts = task_state_e.E_TASK_STATE_BLOCKED ∨ ts = task_state_e.E_TASK_STATE_SUSPENDED
        · rw [if_pos hl]
          simp
        · rw [if_neg hl]
          simp
      refine ⟨?_, ?_, hev⟩
      · rw [hev]
        by_cases hl : ts = task_state_e.E_TASK_STATE_READY ∨
            ts = task_state_e.E_TASK_STATE_BLOCKED ∨ ts = task_state_e.E_TASK_STATE_SUSPENDED
        · rw [if_pos hl]
          simp [hl]
        · rw [if_neg hl]
          simp [hl]
      · intro hdead
        have hl : ¬(ts = task_state_e.E_TASK_STATE_READY ∨
            ts = task_state_e.E_TASK_STATE_BLOCKED ∨
            ts = task_state_e.E_TASK_STATE_SUSPENDED) := by
          rcases hdead with h | h | h <;> subst h <;> decide
        rw [hev, if_neg hl]
        simp
  · rw [if_neg h1] at h
    exact absurd h (by simp)

/-- Witness for C7: old = 0, new = AUTONOMOUS (2), outgoing task
ready: delete then create of the autonomous task. -/
theorem C7_witness :
    loop_iter_events 0 2 task_state_e.E_TASK_STATE_READY =
      [Event.background, Event.task_delete,
        Event.task_create (daemon_task_fn.mode state_task.E_AUTON_TASK),
        Event.delay_until] := by
  have h := (C7_delete_gating 0 2 task_state_e.E_TASK_STATE_READY
    state_task.E_AUTON_TASK (by decide)).2.2
  rw [h]
  decide

/-- C8: every step of the daemon keeps at most one live task in the
single static slot. On a loop iteration whose outgoing task has
scheduler state `ts` (never `RUNNING`: the daemon itself is the running
task) the slot occupancy is 1 exactly when `ts` is a live state; the
occupancy after every single event of the iteration — including the
point between delete and create — stays at or below one, and bootstrap
task creation starts from the empty slot. -/
theorem C8_slot_occupancy (status polled : Nat) (ts : task_state_e) (occ : Nat)
    (_hts : ts ≠ task_state_e.E_TASK_STATE_RUNNING)
    (hocc : occ = if ts = task_state_e.E_TASK_STATE_READY ∨
        ts = task_state_e.E_TASK_STATE_BLOCKED ∨
        ts = task_state_e.E_TASK_STATE_SUSPENDED then 1 else 0) :
    at_most_one (occ_trace occ (loop_iter_events status polled ts)) = true ∧
    at_most_one (occ_trace 0 bootstrap_events) = true := by
  subst hocc
  constructor
  · unfold loop_iter_events
    by_cases h1 : polled ≠ status
    · rw [if_pos h1]
      by_cases h2 : polled &&& COMPETITION_DISABLED ≠ 0 ∧
          status &&& COMPETITION_DISABLED ≠ 0
      · rw [if_pos h2]
        by_cases hl : ts = task_state_e.E_TASK_STATE_READY ∨
            ts = task_state_e.E_TASK_STATE_BLOCKED ∨ ts = task_state_e.E_TASK_STATE_SUSPENDED
        · rw [if_pos hl]
          rfl
        · rw [if_neg hl]
          rfl
      · rw [if_neg h2]
        unfold transition_events
        by_cases hl : ts = task_state_e.E_TASK_STATE_READY ∨
            ts = task_state_e.E_TASK_STATE_BLOCKED ∨ ts = task_state_e.E_TASK_STATE_SUSPENDED
        · rw [if_pos hl, if_pos hl]
          rfl
        · rw [if_neg hl, if_neg hl]
          rfl
    · rw [if_neg h1]
      by_cases hl : ts = task_state_e.E_TASK_STATE_READY ∨
          ts = task_state_e.E_TASK_STATE_BLOCKED ∨ ts = task_state_e.E_TASK_STATE_SUSPENDED
      · rw [if_pos hl]
        rfl
      · rw [if_neg hl]
        rfl
  · rfl

/-- Witness for C8: a ready outgoing task, transition 0 to
AUTONOMOUS (2): the recorded occupancies are 1, 0, 1, 1. -/
theorem C8_witness :
    at_most_one (occ_trace 1 (loop_iter_events 0 2 task_state_e.E_TASK_STATE_READY)) = true ∧
    at_most_one (occ_trace 0 bootstrap_events) = true :=
  C8_slot_occupancy 0 2 task_state_e.E_TASK_STATE_READY 1 (by decide) (by decide)

/-- C6 is refuted on the code: the iteration that takes the
both-DISABLED suppression path (here old = DISABLED = 1,
new = DISABLED|AUTONOMOUS = 3) runs the Background Service Step but
does not end with the deadline-paced sleep — the `continue` at
`system_daemon.c` line 94 jumps back to the top of the loop, skipping
`task_delay_until` at line 121, so the service step re-runs within the
same 2 ms tick. -/
theorem C6_counterexample :
    loop_iter_events 1 3 task_state_e.E_TASK_STATE_READY = [Event.background] ∧
    Event.delay_until ∉ loop_iter_events 1 3 task_state_e.E_TASK_STATE_READY := by
  decide

/-- C6 (amended): every steady-state loop iteration runs the Background
Service Step exactly once, and ends with the deadline-paced sleep if
and only if it does not take the both-DISABLED suppression path; on
that path the sleep is skipped, so the service step re-runs within the
same 2 ms tick rather than once per tick. -/
theorem C6_amended_service_step (status polled : Nat) (ts : task_state_e) :
    (loop_iter_events status polled ts).count Event.background = 1 ∧
    ((loop_iter_events status polled ts).getLast? = some Event.delay_until ↔
      ¬(polled ≠ status ∧ polled &&& COMPETITION_DISABLED ≠ 0 ∧
          status &&& COMPETITION_DISABLED ≠ 0)) := by
  unfold loop_iter_events transition_events
  by_cases h1 : polled ≠ status
  · by_cases h2 : polled &&& COMPETITION_DISABLED ≠ 0 ∧ status &&& COMPETITION_DISABLED ≠ 0
    · rw [if_pos h1, if_pos h2]
      refine ⟨rfl, ⟨fun hEq => absurd hEq (by decide), fun hn => absurd ⟨h1, h2⟩ hn⟩⟩
    · rw [if_pos h1, if_neg h2]
      by_cases hl : ts = task_state_e.E_TASK_STATE_READY ∨
          ts = task_state_e.E_TASK_STATE_BLOCKED ∨ ts = task_state_e.E_TASK_STATE_SUSPENDED
      · rw [if_pos hl]
        exact ⟨rfl, ⟨fun _ hc => h2 hc.2, fun _ => rfl⟩⟩
      · rw [if_neg hl]
        exact ⟨rfl, ⟨fun _ hc => h2 hc.2, fun _ => rfl⟩⟩
  · rw [if_neg h1]
    exact ⟨rfl, ⟨fun _ hc => h1 hc.1, fun _ => rfl⟩⟩

/-- C3: after an install attempt, either both sentinel words match the
two magic constants and every Reload Table slot equals the hot binary's
linked address for that callback with both metadata pointers the linked
constants, or a sentinel word differs and every slot and both metadata
pointers are exactly zero; no other outcome exists, and no error is
reported in either case. -/
theorem C3_install_dichotomy (magic0 magic1 : Nat) (bin : hot_binary) :
    (magic0 = MAGIC0 ∧ magic1 = MAGIC1 →
      ((invoke_install_hot_table magic0 magic1 bin).table.compile_timestamp =
          bin.compile_timestamp ∧
        (invoke_install_hot_table magic0 magic1 bin).table.compile_directory =
          bin.compile_directory) ∧
      (invoke_install_hot_table magic0 magic1 bin).table.fn_init = bin.fn_init ∧
      (invoke_install_hot_table magic0 magic1 bin).table.fn_autonomous = bin.fn_autonomous ∧
      (invoke_install_hot_table magic0 magic1 bin).table.fn_opcontrol = bin.fn_opcontrol ∧
      (invoke_install_hot_table magic0 magic1 bin).table.fn_disabled = bin.fn_disabled ∧
      (invoke_install_hot_table magic0 magic1 bin).table.fn_comp_init =
        bin.fn_comp_init ∧
      (invoke_install_hot_table magic0 magic1 bin).table.fn_cpp_init =
        bin.fn_cpp_init) ∧
    (¬(magic0 = MAGIC0 ∧ magic1 = MAGIC1) →
      (invoke_install_hot_table magic0 magic1 bin).table = zero_table) ∧
    (invoke_install_hot_table magic0 magic1 bin).error_reported = false := by
  by_cases h : magic0 = MAGIC0 ∧ magic1 = MAGIC1
  · unfold invoke_install_hot_table
    rw [if_pos h]
    exact ⟨fun _ => ⟨⟨rfl, rfl⟩, rfl, rfl, rfl, rfl, rfl, rfl⟩,
      fun hn => absurd h hn, rfl⟩
  · unfold invoke_install_hot_table
    rw [if_neg h]
    exact ⟨fun hc => absurd hc h, fun _ => rfl, rfl⟩

/-- Witness for C3: a matched sentinel installs the sample binary's
autonomous slot; a mismatched sentinel zeroes the table; no error is
reported. -/
theorem C3_witness :
    (invoke_install_hot_table MAGIC0 MAGIC1 wit_bin).table.fn_autonomous = 22 ∧
    (invoke_install_hot_table 0 MAGIC1 wit_bin).table = zero_table ∧
    (invoke_install_hot_table 0 MAGIC1 wit_bin).error_reported = false := by
  refine ⟨?_, ?_, ?_⟩
  · have h := ((C3_install_dichotomy MAGIC0 MAGIC1 wit_bin).1 ⟨rfl, rfl⟩).2.2.1
    rw [h]
    rfl
  · exact (C3_install_dichotomy 0 MAGIC1 wit_bin).2.1 (by decide)
  · exact (C3_install_dichotomy 0 MAGIC1 wit_bin).2.2

/-- C4 is refuted on the code (code bug): `install_hot_table` computes
the bss clear length as `__bss_end - __bss_end` (`hot.c` line 48),
which is always zero, so the bss region is never cleared, contradicting
the code's own comment "Zero fill the sbss and bss segments" at line
46. With sbss empty at [0,0), bss = [100,101) and memory holding 1 in
every byte, the bss byte at address 100 still reads 1 after the
clearing step, while the same step with sbss = [0,1) does clear the
sbss byte at address 0. -/
theorem C4_bss_not_cleared :
    install_clear_bss ⟨0, 0, 100, 101⟩ (fun _ => 1) 100 = 1 ∧
    install_clear_bss ⟨0, 1, 100, 101⟩ (fun _ => 1) 0 = 0 :=
  ⟨rfl, rfl⟩

/-- C5 is refuted on the code: with a Reload Table whose `autonomous`
slot is non-null (4096), the autonomous mode task still invokes the
statically linked `autonomous` symbol (`system_daemon.c` line 182), not
the table override — `setup_user_functions` resolves only
`initialize` and `cpp_initialize`. -/
theorem C5_counterexample :
    tbl_over.fn_autonomous = 4096 ∧ (4096 : Nat) ≠ 0 ∧
    mode_task_invokes tbl_over state_task.E_AUTON_TASK ≠
      call_target.hot_addr 4096 ∧
    mode_task_invokes tbl_over state_task.E_AUTON_TASK =
      call_target.static_sym cold_symbol.sym_autonomous := by
  refine ⟨rfl, by decide, by decide, rfl⟩

/-- C5 (amended): only the `initialize` callback (and its
alternate-linkage variant `cpp_initialize`) is resolved at startup by
the slot-non-null rule, via `setup_user_functions`; the four mode
callbacks (`autonomous`, `opcontrol`, `disabled`,
`competition_initialize`) always invoke their statically linked cold
symbols and never consult the Reload Table; the initialization task
invokes the cached binding. -/
theorem C5_amended_resolution (tbl : hot_table) :
    (tbl.fn_init ≠ 0 →
      (setup_user_functions tbl).user_init =
        call_target.hot_addr tbl.fn_init) ∧
    (tbl.fn_init = 0 →
      (setup_user_functions tbl).user_init =
        call_target.static_sym cold_symbol.sym_init) ∧
    (tbl.fn_cpp_init ≠ 0 →
      (setup_user_functions tbl).user_cpp_init =
        call_target.hot_addr tbl.fn_cpp_init) ∧
    (tbl.fn_cpp_init = 0 →
      (setup_user_functions tbl).user_cpp_init =
        call_target.static_sym cold_symbol.sym_cpp_init) ∧
    (∀ s, mode_task_invokes tbl s = mode_task_invokes zero_table s) ∧
    (∀ s, ∃ c, mode_task_invokes tbl s = call_target.static_sym c) ∧
    init_task_invokes (setup_user_functions tbl) =
      (setup_user_functions tbl).user_init := by
  refine ⟨?_, ?_, ?_, ?_, ?_, ?_, rfl⟩
  · intro h
    show (if tbl.fn_init ≠ 0 then call_target.hot_addr tbl.fn_init
        else call_target.static_sym cold_symbol.sym_init) =
      call_target.hot_addr tbl.fn_init
    rw [if_pos h]
  · intro h
    show (if tbl.fn_init ≠ 0 then call_target.hot_addr tbl.fn_init
        else call_target.static_sym cold_symbol.sym_init) =
      call_target.static_sym cold_symbol.sym_init
    rw [if_neg (fun hc => hc h)]
  · intro h
    show (if tbl.fn_cpp_init ≠ 0 then call_target.hot_addr tbl.fn_cpp_init
        else call_target.static_sym cold_symbol.sym_cpp_init) =
      call_target.hot_addr tbl.fn_cpp_init
    rw [if_pos h]
  · intro h
    show (if tbl.fn_cpp_init ≠ 0 then call_target.hot_addr tbl.fn_cpp_init
        else call_target.static_sym cold_symbol.sym_cpp_init) =
      call_target.static_sym cold_symbol.sym_cpp_init
    rw [if_neg (fun hc => hc h)]
  · intro s
    cases s <;> rfl
  · intro s
    cases s <;> exact ⟨_, rfl⟩

/-- Witness for C5 (amended) at the two sample tables: a non-null
`initialize` slot is used; a null one falls back to the static symbol;
the autonomous mode task of the overridden table invokes the same
statically linked symbol as with the zeroed table. -/
theorem C5_amended_witness :
    (setup_user_functions tbl_over2).user_init = call_target.hot_addr 7 ∧
    (setup_user_functions tbl_over).user_init =
      call_target.static_sym cold_symbol.sym_init ∧
    mode_task_invokes tbl_over state_task.E_AUTON_TASK =
      mode_task_invokes zero_table state_task.E_AUTON_TASK := by
  refine ⟨?_, ?_, ?_⟩
  · have h := (C5_amended_resolution tbl_over2).1 (by decide)
    rw [h]
    rfl
  · exact (C5_amended_resolution tbl_over).2.1 rfl
  · exact (C5_amended_resolution tbl_over).2.2.2.2.1 state_task.E_AUTON_TASK

/-- C10: for each IMU accessor, when the port claim succeeds but the
device status word has the calibrating flag set, the function sets
errno to EAGAIN, releases the port, and returns its error sentinel
(PROS_ERR for `imu_reset`, PROS_ERR_F for heading and degrees, a struct
with every field PROS_ERR_F for quaternion, attitude and the raw
accessors, E_IMU_STATUS_ERROR for `imu_get_status`) without invoking
the accessor's vendor operation. -/
theorem C10_imu_calibrating_guard (status_word : Nat)
    (hcal : status_word &&& E_IMU_STATUS_CALIBRATING ≠ 0) :
    imu_reset true status_word =
      { errno := errno_effect.set_eagain, port_released := true,
        ret := PROS_ERR, vendor_op_invoked := false } ∧
    imu_get_heading true status_word =
      { errno := errno_effect.set_eagain, port_released := true,
        ret := pros_double.pros_err_f, vendor_op_invoked := false } ∧
    imu_get_degrees true status_word =
      { errno := errno_effect.set_eagain, port_released := true,
        ret := pros_double.pros_err_f, vendor_op_invoked := false } ∧
    imu_get_quaternion true status_word =
      { errno := errno_effect.set_eagain, port_released := true,
        ret := quaternion_err, vendor_op_invoked := false } ∧
    imu_get_attitude true status_word =
      { errno := errno_effect.set_eagain, port_released := true,
        ret := attitude_err, vendor_op_invoked := false } ∧
    imu_get_raw_gyro true status_word =
      { errno := errno_effect.set_eagain, port_released := true,
        ret := raw_imu_err, vendor_op_invoked := false } ∧
    imu_get_raw_accel true status_word =
      { errno := errno_effect.set_eagain, port_released := true,
        ret := raw_imu_err, vendor_op_invoked := false } ∧
    imu_get_status true status_word =
      { errno := errno_effect.set_eagain, port_released := true,
        ret := E_IMU_STATUS_ERROR, vendor_op_invoked := false } := by
  have hc : imu_calibrating status_word = true := by
    unfold imu_calibrating
    exact decide_eq_true hcal
  refine ⟨?_, ?_, ?_, ?_, ?_, ?_, ?_, ?_⟩ <;>
    simp [imu_reset, imu_get_heading, imu_get_degrees, imu_get_quaternion,
      imu_get_attitude, imu_get_raw_gyro, imu_get_raw_accel, imu_get_status, hc]

/-- Witness for C10 at a status word with only the calibrating flag
set. -/
theorem C10_witness :
    imu_reset true 1 =
      { errno := errno_effect.set_eagain, port_released := true,
        ret := PROS_ERR, vendor_op_invoked := false } ∧
    imu_get_heading true 1 =
      { errno := errno_effect.set_eagain, port_released := true,
        ret := pros_double.pros_err_f, vendor_op_invoked := false } ∧
    imu_get_degrees true 1 =
      { errno := errno_effect.set_eagain, port_released := true,
        ret := pros_double.pros_err_f, vendor_op_invoked := false } ∧
    imu_get_quaternion true 1 =
      { errno := errno_effect.set_eagain, port_released := true,
        ret := quaternion_err, vendor_op_invoked := false } ∧
    imu_get_attitude true 1 =
      { errno := errno_effect.set_eagain, port_released := true,
        ret := attitude_err, vendor_op_invoked := false } ∧
    imu_get_raw_gyro true 1 =
      { errno := errno_effect.set_eagain, port_released := true,
        ret := raw_imu_err, vendor_op_invoked := false } ∧
    imu_get_raw_accel true 1 =
      { errno := errno_effect.set_eagain, port_released := true,
        ret := raw_imu_err, vendor_op_invoked := false } ∧
    imu_get_status true 1 =
      { errno := errno_effect.set_eagain, port_released := true,
        ret := E_IMU_STATUS_ERROR, vendor_op_invoked := false } :=
  C10_imu_calibrating_guard 1 (by decide)
